import Mathlib

/-!
Verification of the BWAIShotgun coordination core (`src/bwapi.rs`, `src/cli.rs`)
against its natural-language specification.

The Rust source is shallowly embedded: pure functions become Lean functions,
`u32`/`usize`/`i32` become `Nat`/`Int` (no arithmetic overflows occur in the
embedded code paths), fallible operations return `Option`/`Except`, and the
line-oriented INI output of `BwapiIni::write` is modelled as the list of lines
written (each Rust `writeln!` contributes one element), together with the full
byte string obtained by suffixing every line with a newline.
-/

namespace BWAIShotgun

/-- `BwapiVersion` from `src/bwapi.rs`: the closed enumeration of known BWAPI
versions. -/
inductive BwapiVersion where
  | Bwapi375
  | Bwapi412
  | Bwapi420
  | Bwapi440
deriving DecidableEq, Repr

/-- `BwapiVersion::from_u32` from `src/bwapi.rs`: the checksum-to-version
lookup.  The Rust `match` on the `u32` checksum is rendered as a chain of
equality tests in the source's arm order. -/
def BwapiVersion.from_u32 (crc : Nat) : Option BwapiVersion :=
  if crc = 0x71CB208B then some .Bwapi440
  else if crc = 0xD1E0DDDF then some .Bwapi420
  else if crc = 0x267BD0D5 then some .Bwapi412
  else if crc = 0x4E39C88A then some .Bwapi375
  else if crc = 0x41128276 then some .Bwapi375
  else none

/-- `BwapiVersion::version_short` from `src/bwapi.rs`. -/
def BwapiVersion.version_short : BwapiVersion → String
  | .Bwapi375 => "375"
  | .Bwapi412 => "412"
  | .Bwapi420 => "420"
  | .Bwapi440 => "440"

/-- `GameInstance` from `src/bwapi.rs`: one slot of the shared-memory game
table.  `server_process_id` is a `u32` (modelled as `Nat`). -/
structure GameInstance where
  server_process_id : Nat
  is_connected : Bool
  last_keep_alive_time : Nat
deriving DecidableEq, Repr

/-- `GameTable` from `src/bwapi.rs`: the fixed array of 8 slots.  The array is
modelled as a list; the claims that depend on the arity carry the hypothesis
`length = 8`. -/
structure GameTable where
  game_instances : List GameInstance
deriving DecidableEq, Repr

/-- `GameTableAccess` from `src/bwapi.rs`.  The `Option<Shmem>` handle and the
lazy OS-level attach performed by `get_game_table` are environment I/O; the
embedding carries the observable outcome directly: `game_table` is the
snapshot read through the handle when attachment succeeded, and `none` when
the segment is unattached/unreadable. -/
structure GameTableAccess where
  game_table : Option GameTable

/-- `GameTableAccess::get_game_table` from `src/bwapi.rs`, with the memoized
attach already resolved into the state (see `GameTableAccess`). -/
def GameTableAccess.get_game_table (self : GameTableAccess) : Option GameTable :=
  self.game_table

/-- `GameTableAccess::all_slots_filled` from `src/bwapi.rs`. -/
def GameTableAccess.all_slots_filled (self : GameTableAccess) : Bool :=
  (self.get_game_table.map fun table =>
    !(table.game_instances.any fun it => it.server_process_id != 0 && !it.is_connected)).getD
    false

/-- `GameTableAccess::has_free_slot` from `src/bwapi.rs`. -/
def GameTableAccess.has_free_slot (self : GameTableAccess) : Bool :=
  (self.get_game_table.map fun table =>
    table.game_instances.any fun it => it.server_process_id != 0 && !it.is_connected).getD
    false

/-- A slot is *reserved* when its process id is nonzero and it is not yet
connected (spec §3); this is the predicate tested inside both slot queries. -/
def GameInstance.reserved (it : GameInstance) : Bool :=
  it.server_process_id != 0 && !it.is_connected

/-- `BwapiLanMode` from `src/bwapi.rs`. -/
inductive BwapiLanMode where
  | LocalAreaNetworkUDP
  | LocalPC
deriving DecidableEq, Repr

/-- The `Display` impl for `BwapiLanMode` from `src/bwapi.rs`. -/
def BwapiLanMode.display : BwapiLanMode → String
  | .LocalAreaNetworkUDP => "Local Area Network (UDP)"
  | .LocalPC => "Local PC"

/-- Rust `str::to_lowercase` as used by the `BwapiLanMode` deserializer; all
inputs relevant to the claims are ASCII, where per-character lowering agrees
with Rust's Unicode lowering. -/
def strToLower (s : String) : String :=
  ⟨s.data.map Char.toLower⟩

/-- The `Deserialize` impl for `BwapiLanMode` from `src/bwapi.rs`: lowercase
the input string, accept the two short codes and two full names, and reject
anything else with an error carrying the string handed to
`Unexpected::Str` (the lowercased input). -/
def BwapiLanMode.deserialize (s : String) : Except String BwapiLanMode :=
  if strToLower s = "u" ∨ strToLower s = "localareanetworkudp" then
    .ok .LocalAreaNetworkUDP
  else if strToLower s = "p" ∨ strToLower s = "localpc" then
    .ok .LocalPC
  else .error (strToLower s)

/-- Modelled from the spec: the `Race` enum and its `Display` impl live in the
crate root, which is not among the provided sources.  Spec §4.4 renders
`race=<identity.race>` and §8's end-to-end scenario shows `race=Terran`, so
each variant displays as its name. -/
inductive Race where
  | Protoss
  | Terran
  | Zerg
  | Random
deriving DecidableEq, Repr

/-- Modelled from the spec: rendering of `Race` (see `Race`). -/
def Race.display : Race → String
  | .Protoss => "Protoss"
  | .Terran => "Terran"
  | .Zerg => "Zerg"
  | .Random => "Random"

/-- `BwapiConnectMode` from `src/bwapi.rs`. -/
inductive BwapiConnectMode where
  | Host (map : Option String) (player_count : Nat)
  | Join
deriving DecidableEq, Repr

/-- `AutoMenu` from `src/bwapi.rs`: `Unused` (managed by bwheadless) or the
BWAPI-managed auto-menu. -/
inductive AutoMenu where
  | Unused
  | AutoMenu (name : String) (race : Race) (game_name : String)
      (connect_mode : BwapiConnectMode) (lan_mode : BwapiLanMode)

/-- `BwapiIni` from `src/bwapi.rs`.  `tm_module : Option<PathBuf>` is modelled
as an optional string (the path as rendered by `to_string_lossy`). -/
structure BwapiIni where
  ai_module : String
  tm_module : Option String
  game_speed : Int
  sound : Bool
  auto_menu : AutoMenu

/-- The `Default` impl for `BwapiIni` (derived in `src/bwapi.rs`, using the
`Default` impl of `AutoMenu` which yields `Unused`). -/
def BwapiIni.default : BwapiIni :=
  { ai_module := "", tm_module := none, game_speed := 0, sound := false,
    auto_menu := .Unused }

/-- The fixed replay-path line emitted by `BwapiIni::write`. -/
def replayLine : String :=
  "save_replay = replays/$Y $b $d/%MAP%_%BOTRACE%%ALLYRACES%vs%ENEMYRACES%_$H$M$S.rep"

/-- `BwapiIni::write` from `src/bwapi.rs`, as the list of lines written: each
`writeln!` in source order contributes one element. -/
def BwapiIni.writeLines (ini : BwapiIni) : List String :=
  ["[ai]", "ai = " ++ ini.ai_module]
    ++ (match ini.tm_module with
        | some tm => ["tournament = " ++ tm]
        | none => [])
    ++ ["[auto_menu]"]
    ++ (match ini.auto_menu with
        | .Unused => []
        | .AutoMenu name race game_name connect_mode lan_mode =>
          ["auto_menu=LAN",
           "lan_mode=" ++ lan_mode.display,
           "character_name=" ++ name,
           "race=" ++ race.display]
            ++ (match connect_mode with
                | .Host map player_count =>
                  (match map with
                   | some map_name => ["map=" ++ map_name]
                   | none => [])
                    ++ ["wait_for_min_players=" ++ toString player_count,
                        "wait_for_max_players=" ++ toString player_count]
                | .Join => ["game=" ++ game_name]))
    ++ [replayLine,
        "[starcraft]",
        "speed_override = " ++ toString ini.game_speed,
        "sound = " ++ (if ini.sound then "ON" else "OFF")]

/-- The byte string produced by `BwapiIni::write`: every `writeln!` suffixes
its line with a newline. -/
def BwapiIni.writeString (ini : BwapiIni) : String :=
  String.join (ini.writeLines.map fun l => l ++ "\n")

/-- `Binary` from the crate root (its declaration is not among the provided
sources); the shape is determined by its use in `BwapiIni::from`: each variant
carries the path of the bot binary. -/
inductive Binary where
  | Dll (path : String)
  | Exe (path : String)
  | Jar (path : String)
deriving DecidableEq, Repr

/-- `BotSetup` from `botsetup.rs` (not among the provided sources); only the
two fields read by `BwapiIni::from` are modelled. -/
structure BotSetup where
  bot_binary : Binary
  tournament_module : Option String

/-- `BwapiIni::from` from `src/bwapi.rs`: a DLL bot supplies its path as the
`ai` module, an EXE or JAR bot leaves it empty; remaining fields come from
`Default`. -/
def BwapiIni.from (bot_setup : BotSetup) : BwapiIni :=
  { ai_module :=
      match bot_setup.bot_binary with
      | .Dll x => x
      | .Exe _ => ""
      | .Jar _ => ""
    tm_module := bot_setup.tournament_module
    game_speed := BwapiIni.default.game_speed
    sound := BwapiIni.default.sound
    auto_menu := BwapiIni.default.auto_menu }

/-- `GameType` from `src/cli.rs`: the clap subcommand (host a melee game, or
host a human game the bots join). -/
inductive GameType where
  | Melee (bots : List String)
  | Human (bots : List String)
deriving DecidableEq, Repr

/-- `Cli` from `src/cli.rs`: the parsed command line. -/
structure Cli where
  map : Option String
  game_type : Option GameType
  human_speed : Bool
  lan_mode : Option BwapiLanMode

/-- `HeadfulMode` from the crate root (declaration not among the provided
sources); only the `Off` variant is used by `src/cli.rs`. -/
inductive HeadfulMode where
  | Off
deriving DecidableEq, Repr

/-- `BotLaunchConfig` from the crate root (declaration not among the provided
sources); the shape is determined by its construction in `src/cli.rs`. -/
structure BotLaunchConfig where
  name : String
  player_name : Option String
  race : Option Race
  headful : HeadfulMode
deriving DecidableEq, Repr

/-- `crate::GameType` from the crate root (declaration not among the provided
sources); `src/cli.rs` only builds its `Melee` variant, which carries the bot
launch configurations. -/
inductive CrateGameType where
  | Melee (bots : List BotLaunchConfig)
deriving DecidableEq, Repr

/-- `GameConfig` from the crate root (declaration not among the provided
sources); the fields are determined by its construction in `src/cli.rs`. -/
structure GameConfig where
  map : Option String
  game_name : Option String
  game_type : CrateGameType
  human_host : Bool
  human_speed : Bool
  latency_frames : Nat
  lan_mode : Option BwapiLanMode
  time_out_at_frame : Option Nat

/-- `Error` from `src/cli.rs`: the conversion failure cases; the `ClapError`
payload is modelled by the raw message string. -/
inductive CliError where
  | NoArguments
  | ClapError (msg : String)
deriving DecidableEq, Repr

/-- `TryFrom<Cli> for GameConfig` from `src/cli.rs`.  The source's guard chain
(`map.is_none() && game_type.is_none()`, then `map.is_some() !=
game_type.is_some()`, else both present) is rendered as a match on the two
options, which makes the source's `expect`/`unwrap` on `game_type` (reachable
only with both options present) statically resolved. -/
def GameConfig.try_from (cli : Cli) : Except CliError GameConfig :=
  match cli.map, cli.game_type with
  | none, none => .error .NoArguments
  | some _, none =>
      .error (.ClapError
        "Either no or all arguments are required. Use '-h' to get help.\n")
  | none, some _ =>
      .error (.ClapError
        "Either no or all arguments are required. Use '-h' to get help.\n")
  | some m, some gt =>
      .ok { map := some m
            game_name := none
            game_type := .Melee
              ((match gt with
                | .Melee bots => bots
                | .Human bots => bots).map fun name =>
                  { name := name, player_name := none, race := none,
                    headful := .Off })
            human_host := match gt with
              | .Human _ => true
              | .Melee _ => false
            human_speed := cli.human_speed
            latency_frames := 3
            lan_mode := cli.lan_mode
            time_out_at_frame := none }

end BWAIShotgun

namespace BWAIShotgun

lemma any_eq_decide_countP {α : Type} (l : List α) (p : α → Bool) :
    l.any p = decide (0 < l.countP p) := by
  induction l with
  | nil => simp
  | cons a as ih => by_cases h : p a <;> simp [h, List.countP_cons, ih]

/-- C1: for an attached table of 8 slots with exactly `k` reserved
(process id ≠ 0, not connected) slots, `has_free_slot` returns `true` iff
`k > 0` and `all_slots_filled` returns `true` iff `k = 0`. -/
theorem has_free_slot_all_slots_filled_count (table : GameTable) (k : Nat)
    (hlen : table.game_instances.length = 8)
    (hk : k = table.game_instances.countP GameInstance.reserved) :
    (GameTableAccess.mk (some table)).has_free_slot = decide (0 < k) ∧
      (GameTableAccess.mk (some table)).all_slots_filled = decide (k = 0) := by
  subst hk
  have hhas : (GameTableAccess.mk (some table)).has_free_slot
      = table.game_instances.any GameInstance.reserved := rfl
  have hall : (GameTableAccess.mk (some table)).all_slots_filled
      = !(table.game_instances.any GameInstance.reserved) := rfl
  rw [hhas, hall, any_eq_decide_countP]
  rcases Nat.eq_zero_or_pos (table.game_instances.countP GameInstance.reserved)
    with h | h
  · simp [h]
  · simp [h, Nat.pos_iff_ne_zero.mp h]

/-- Witness for C1: a concrete 8-slot table with exactly one reserved slot has
a free slot and is not reported full. -/
theorem has_free_slot_all_slots_filled_count_witness :
    (GameTableAccess.mk (some (GameTable.mk
      [⟨7, false, 0⟩, ⟨0, false, 0⟩, ⟨3, true, 1⟩, ⟨0, false, 0⟩,
       ⟨0, false, 0⟩, ⟨0, false, 0⟩, ⟨0, false, 0⟩, ⟨0, false, 0⟩]))).has_free_slot
        = decide (0 < 1) ∧
      (GameTableAccess.mk (some (GameTable.mk
        [⟨7, false, 0⟩, ⟨0, false, 0⟩, ⟨3, true, 1⟩, ⟨0, false, 0⟩,
         ⟨0, false, 0⟩, ⟨0, false, 0⟩, ⟨0, false, 0⟩, ⟨0, false, 0⟩]))).all_slots_filled
        = decide ((1 : Nat) = 0) :=
  has_free_slot_all_slots_filled_count _ 1 (by decide) (by decide)

/-- C2: with an unattached/unreadable table both queries return `false`, and in
every state (attached or not) the two queries are never simultaneously `true`. -/
theorem unattached_false_and_never_both_true :
    ((GameTableAccess.mk none).has_free_slot = false ∧
      (GameTableAccess.mk none).all_slots_filled = false) ∧
      ∀ a : GameTableAccess,
        ¬(a.has_free_slot = true ∧ a.all_slots_filled = true) := by
  refine ⟨⟨rfl, rfl⟩, ?_⟩
  rintro ⟨t⟩ ⟨h1, h2⟩
  cases t with
  | none => exact Bool.false_ne_true h1
  | some table =>
    simp [GameTableAccess.has_free_slot, GameTableAccess.all_slots_filled,
      GameTableAccess.get_game_table] at h1 h2
    obtain ⟨it, hmem, hpid, hconn⟩ := h1
    have := h2 it hmem hpid
    rw [hconn] at this
    exact Bool.false_ne_true this

/-- C3: the checksum lookup is total and pure on 32-bit inputs: the two alias
checksums both map to V375, the other three literals map to their distinct
tags, and every other input maps to `none`. -/
theorem from_u32_characterisation :
    BwapiVersion.from_u32 0x4E39C88A = some .Bwapi375 ∧
      BwapiVersion.from_u32 0x41128276 = some .Bwapi375 ∧
      (0x4E39C88A : Nat) ≠ 0x41128276 ∧
      BwapiVersion.from_u32 0x267BD0D5 = some .Bwapi412 ∧
      BwapiVersion.from_u32 0xD1E0DDDF = some .Bwapi420 ∧
      BwapiVersion.from_u32 0x71CB208B = some .Bwapi440 ∧
      (BwapiVersion.Bwapi375 ≠ .Bwapi412 ∧ BwapiVersion.Bwapi375 ≠ .Bwapi420 ∧
        BwapiVersion.Bwapi375 ≠ .Bwapi440 ∧ BwapiVersion.Bwapi412 ≠ .Bwapi420 ∧
        BwapiVersion.Bwapi412 ≠ .Bwapi440 ∧ BwapiVersion.Bwapi420 ≠ .Bwapi440) ∧
      ∀ crc : Nat, BwapiVersion.from_u32 crc = none ↔
        (crc ≠ 0x71CB208B ∧ crc ≠ 0xD1E0DDDF ∧ crc ≠ 0x267BD0D5 ∧
          crc ≠ 0x4E39C88A ∧ crc ≠ 0x41128276) := by
  refine ⟨by decide, by decide, by decide, by decide, by decide, by decide,
    by decide, ?_⟩
  intro crc
  unfold BwapiVersion.from_u32
  split_ifs <;> simp_all

lemma str_head_append (p s : String) (c : Char) (h : p.data.head? = some c) :
    (p ++ s).data.head? = some c := by
  rw [String.data_append]
  cases hd : p.data with
  | nil => rw [hd] at h; cases h
  | cons a l => rw [hd] at h; simpa using h

lemma str_ne_of_head {s t : String} (h : s.data.head? ≠ t.data.head?) :
    s ≠ t :=
  fun he => h (by rw [he])

lemma append_ne_of_head (p s q t : String) (c d : Char)
    (hp : p.data.head? = some c) (hq : q.data.head? = some d) (h : c ≠ d) :
    p ++ s ≠ q ++ t := by
  apply str_ne_of_head
  rw [str_head_append p s c hp, str_head_append q t d hq]
  simp [h]

lemma append_ne_lit (p s q : String) (c d : Char)
    (hp : p.data.head? = some c) (hq : q.data.head? = some d) (h : c ≠ d) :
    p ++ s ≠ q := by
  apply str_ne_of_head
  rw [str_head_append p s c hp, hq]
  simp [h]

lemma sections_sublist (mid1 mid2 : List String) (a sp snd : String) :
    List.Sublist ["[ai]", "[auto_menu]", replayLine, "[starcraft]"]
      (["[ai]", a] ++ mid1 ++ ["[auto_menu]"] ++ mid2
        ++ [replayLine, "[starcraft]", sp, snd]) := by
  simp only [List.append_assoc, List.cons_append, List.nil_append]
  refine List.Sublist.cons₂ _ (List.Sublist.cons _ ?_)
  refine List.Sublist.trans ?_ (List.sublist_append_right mid1 _)
  refine List.Sublist.cons₂ _ ?_
  refine List.Sublist.trans ?_ (List.sublist_append_right mid2 _)
  exact List.Sublist.cons₂ _ (List.Sublist.cons₂ _ (List.nil_sublist _))

/-- C4: the end-to-end host scenario (map `(2)Destination.scx`, 2 players,
identity `MyBot`/Terran, LAN over UDP, managed automation, default settings)
produces a document containing the thirteen expected lines in order, and every
document has its sections in the fixed order `[ai]`, `[auto_menu]`, the replay
line, `[starcraft]`. -/
theorem end_to_end_host_document (path game_name : String) :
    List.Sublist
      ["ai = " ++ path, "[auto_menu]", "auto_menu=LAN",
       "lan_mode=Local Area Network (UDP)", "character_name=MyBot",
       "race=Terran", "map=(2)Destination.scx", "wait_for_min_players=2",
       "wait_for_max_players=2", replayLine, "[starcraft]",
       "speed_override = 0", "sound = OFF"]
      (BwapiIni.writeLines
        { ai_module := path, tm_module := none, game_speed := 0,
          sound := false,
          auto_menu := .AutoMenu "MyBot" .Terran game_name
            (.Host (some "(2)Destination.scx") 2) .LocalAreaNetworkUDP }) ∧
      ∀ ini : BwapiIni,
        List.Sublist ["[ai]", "[auto_menu]", replayLine, "[starcraft]"]
          ini.writeLines := by
  constructor
  · have h : BwapiIni.writeLines
        { ai_module := path, tm_module := none, game_speed := 0,
          sound := false,
          auto_menu := .AutoMenu "MyBot" .Terran game_name
            (.Host (some "(2)Destination.scx") 2) .LocalAreaNetworkUDP }
        = "[ai]" :: ["ai = " ++ path, "[auto_menu]", "auto_menu=LAN",
            "lan_mode=Local Area Network (UDP)", "character_name=MyBot",
            "race=Terran", "map=(2)Destination.scx", "wait_for_min_players=2",
            "wait_for_max_players=2", replayLine, "[starcraft]",
            "speed_override = 0", "sound = OFF"] := rfl
    rw [h]
    exact List.sublist_cons_self _ _
  · intro ini
    exact sections_sublist _ _ _ _ _

lemma str_head_exists (p : String) (hp : p.data ≠ []) :
    ∃ c, p.data.head? = some c := by
  cases hpd : p.data with
  | nil => exact absurd hpd hp
  | cons a l => exact ⟨a, rfl⟩

lemma append_ne_append (p s q t : String) (hp : p.data ≠ [])
    (hq : q.data ≠ []) (h : p.data.head? ≠ q.data.head?) :
    p ++ s ≠ q ++ t := by
  obtain ⟨c, hc⟩ := str_head_exists p hp
  obtain ⟨d, hd⟩ := str_head_exists q hq
  exact append_ne_of_head p s q t c d hc hd
    (fun he => h (by rw [hc, hd, he]))

lemma append_ne_full_lit (p s q : String) (hp : p.data ≠ [])
    (h : p.data.head? ≠ q.data.head?) : p ++ s ≠ q := by
  obtain ⟨c, hc⟩ := str_head_exists p hp
  apply str_ne_of_head
  rw [str_head_append p s c hc, ← hc]
  exact h

/-- C5: in every managed-automation document, the Host role emits
`wait_for_min_players` and `wait_for_max_players` with the same player count
and a `map=` key exactly when a map was supplied, while the Join role emits
`game=<game_name>` and no map or player-count keys. -/
theorem host_join_role_keys (am : String) (tm : Option String) (gs : Int)
    (snd : Bool) (nm : String) (rc : Race) (gn : String)
    (lm : BwapiLanMode) (mp : Option String) (pc : Nat) :
    (("wait_for_min_players=" ++ toString pc) ∈
        (BwapiIni.mk am tm gs snd
          (.AutoMenu nm rc gn (.Host mp pc) lm)).writeLines ∧
      ("wait_for_max_players=" ++ toString pc) ∈
        (BwapiIni.mk am tm gs snd
          (.AutoMenu nm rc gn (.Host mp pc) lm)).writeLines ∧
      ((∃ m, ("map=" ++ m) ∈
          (BwapiIni.mk am tm gs snd
            (.AutoMenu nm rc gn (.Host mp pc) lm)).writeLines) ↔
        mp.isSome = true)) ∧
    (("game=" ++ gn) ∈
        (BwapiIni.mk am tm gs snd
          (.AutoMenu nm rc gn .Join lm)).writeLines ∧
      (∀ m, ("map=" ++ m) ∉
        (BwapiIni.mk am tm gs snd
          (.AutoMenu nm rc gn .Join lm)).writeLines) ∧
      (∀ n, ("wait_for_min_players=" ++ n) ∉
          (BwapiIni.mk am tm gs snd
            (.AutoMenu nm rc gn .Join lm)).writeLines ∧
        ("wait_for_max_players=" ++ n) ∉
          (BwapiIni.mk am tm gs snd
            (.AutoMenu nm rc gn .Join lm)).writeLines)) := by
  refine ⟨⟨?_, ?_, ?_⟩, ?_, ?_, ?_⟩
  · cases tm <;> cases mp <;> simp [BwapiIni.writeLines]
  · cases tm <;> cases mp <;> simp [BwapiIni.writeLines]
  · cases mp with
    | some m0 =>
      refine ⟨fun _ => rfl, fun _ => ⟨m0, ?_⟩⟩
      cases tm <;> simp [BwapiIni.writeLines]
    | none =>
      refine iff_of_false ?_ (by simp)
      rintro ⟨m, hm⟩
      cases tm with
      | none =>
        simp [BwapiIni.writeLines] at hm
        rcases hm with h | h | h | h | h | h | h | h | h | h | h | h | h <;>
          exact absurd h (by
            first
            | (apply append_ne_append) <;> decide
            | (apply append_ne_full_lit) <;> decide)
      | some t =>
        simp [BwapiIni.writeLines] at hm
        rcases hm with h | h | h | h | h | h | h | h | h | h | h | h | h
          | h <;>
          exact absurd h (by
            first
            | (apply append_ne_append) <;> decide
            | (apply append_ne_full_lit) <;> decide)
  · cases tm <;> simp [BwapiIni.writeLines]
  · intro m hm
    cases tm with
    | none =>
      simp [BwapiIni.writeLines] at hm
      rcases hm with h | h | h | h | h | h | h | h | h | h | h | h <;>
        exact absurd h (by
          first
          | (apply append_ne_append) <;> decide
          | (apply append_ne_full_lit) <;> decide)
    | some t =>
      simp [BwapiIni.writeLines] at hm
      rcases hm with h | h | h | h | h | h | h | h | h | h | h | h | h <;>
        exact absurd h (by
          first
          | (apply append_ne_append) <;> decide
          | (apply append_ne_full_lit) <;> decide)
  · intro n
    constructor <;>
      · intro hm
        cases tm with
        | none =>
          simp [BwapiIni.writeLines] at hm
          rcases hm with h | h | h | h | h | h | h | h | h | h | h | h <;>
            exact absurd h (by
              first
              | (apply append_ne_append) <;> decide
              | (apply append_ne_full_lit) <;> decide)
        | some t =>
          simp [BwapiIni.writeLines] at hm
          rcases hm with h | h | h | h | h | h | h | h | h | h | h | h
            | h <;>
            exact absurd h (by
              first
              | (apply append_ne_append) <;> decide
              | (apply append_ne_full_lit) <;> decide)

/-- C6: with automation mode `Unused`, the `[auto_menu]` section header is
emitted with zero keys after it: the next line is already the fixed replay
line, followed by the `[starcraft]` section. -/
theorem unused_automenu_empty_section (am : String) (tm : Option String)
    (gs : Int) (snd : Bool) :
    (BwapiIni.mk am tm gs snd .Unused).writeLines
      = ["[ai]", "ai = " ++ am]
          ++ (match tm with
              | some t => ["tournament = " ++ t]
              | none => [])
          ++ ["[auto_menu]", replayLine, "[starcraft]",
              "speed_override = " ++ toString gs,
              "sound = " ++ (if snd then "ON" else "OFF")] := by
  cases tm <;> rfl

/-- Witness for C6: the concrete `Unused` document has nothing between the
`[auto_menu]` header and the replay line. -/
theorem unused_automenu_empty_section_witness :
    (BwapiIni.mk "a" none 0 false .Unused).writeLines
      = ["[ai]", "ai = a", "[auto_menu]", replayLine, "[starcraft]",
         "speed_override = 0", "sound = OFF"] := by
  have h := unused_automenu_empty_section "a" none 0 false
  exact h

/-- C8: config generation is deterministic — equal intent and settings yield
byte-identical documents. -/
theorem config_generation_deterministic (i1 i2 : BwapiIni) (h : i1 = i2) :
    i1.writeString = i2.writeString := by rw [h]

/-- Witness for C8 at the default `BwapiIni`. -/
theorem config_generation_deterministic_witness :
    BwapiIni.default.writeString = BwapiIni.default.writeString :=
  config_generation_deterministic BwapiIni.default BwapiIni.default rfl

/-- C9: an EXE or JAR bot binary yields an empty `ai_module`, so the document
carries the line `ai = ` with an empty value; a DLL binary yields the DLL's
path on that line. -/
theorem ai_module_from_binary (p : String) (tm : Option String) :
    (BwapiIni.from ⟨.Exe p, tm⟩).ai_module = "" ∧
      (BwapiIni.from ⟨.Jar p, tm⟩).ai_module = "" ∧
      "ai = " ∈ (BwapiIni.from ⟨.Exe p, tm⟩).writeLines ∧
      "ai = " ∈ (BwapiIni.from ⟨.Jar p, tm⟩).writeLines ∧
      (BwapiIni.from ⟨.Dll p, tm⟩).ai_module = p ∧
      ("ai = " ++ p) ∈ (BwapiIni.from ⟨.Dll p, tm⟩).writeLines := by
  refine ⟨rfl, rfl, ?_, ?_, rfl, ?_⟩ <;> cases tm <;>
    · show _ ∈ _ :: _ :: _
      exact List.mem_cons_of_mem _ (List.mem_cons_self _ _)

/-- C7 counterexample: the validation error does not carry the offending input
verbatim — for input `"X"` the carried text is the lowercased `"x"`, not
`"X"`. -/
theorem lan_mode_error_lowercases_input :
    BwapiLanMode.deserialize "X" = .error "x" ∧ ("x" : String) ≠ "X" := by
  constructor
  · rfl
  · decide

/-- C7 (amended): LAN-mode parsing is case-insensitive — `"u"`, `"U"` and
`"localareanetworkudp"` parse to the UDP transport, `"p"`/`"localpc"` to
LocalPC; every input whose lowercasing is none of the four accepted tokens
fails with a validation error carrying the lowercased offending input, and no
input is silently defaulted. -/
theorem lan_mode_parse_case_insensitive :
    BwapiLanMode.deserialize "u" = .ok .LocalAreaNetworkUDP ∧
      BwapiLanMode.deserialize "U" = .ok .LocalAreaNetworkUDP ∧
      BwapiLanMode.deserialize "localareanetworkudp"
        = .ok .LocalAreaNetworkUDP ∧
      BwapiLanMode.deserialize "p" = .ok .LocalPC ∧
      BwapiLanMode.deserialize "localpc" = .ok .LocalPC ∧
      BwapiLanMode.deserialize "x" = .error "x" ∧
      ∀ s : String,
        ((∃ e, BwapiLanMode.deserialize s = .error e) ↔
          (strToLower s ≠ "u" ∧ strToLower s ≠ "localareanetworkudp" ∧
            strToLower s ≠ "p" ∧ strToLower s ≠ "localpc")) ∧
        (BwapiLanMode.deserialize s = .ok .LocalAreaNetworkUDP ∨
          BwapiLanMode.deserialize s = .ok .LocalPC ∨
          BwapiLanMode.deserialize s = .error (strToLower s)) := by
  refine ⟨rfl, rfl, rfl, rfl, rfl, rfl, ?_⟩
  intro s
  unfold BwapiLanMode.deserialize
  constructor
  · constructor
    · rintro ⟨e, he⟩
      split_ifs at he with h1 h2
      push_neg at h1 h2
      exact ⟨h1.1, h1.2, h2.1, h2.2⟩
    · rintro ⟨n1, n2, n3, n4⟩
      refine ⟨strToLower s, ?_⟩
      split_ifs with h1 h2
      · rcases h1 with h | h
        · exact absurd h n1
        · exact absurd h n2
      · rcases h2 with h | h
        · exact absurd h n3
        · exact absurd h n4
      · rfl
  · split_ifs with h1 h2
    · exact Or.inl rfl
    · exact Or.inr (Or.inl rfl)
    · exact Or.inr (Or.inr rfl)

/-- Witness for C7 (amended): the short code `"u"` parses to the UDP
transport. -/
theorem lan_mode_parse_case_insensitive_witness :
    BwapiLanMode.deserialize "u" = .ok .LocalAreaNetworkUDP :=
  lan_mode_parse_case_insensitive.1

/-- C10: CLI conversion fails with `NoArguments` iff both the map and the
game-type subcommand are absent, fails with a `ClapError` iff exactly one of
the two is present, and succeeds iff both are present; on success a `Melee`
and a `Human` subcommand convert their bots identically, and `human_host`
is `true` iff the subcommand was `Human`. -/
theorem cli_try_from_characterisation (cli : Cli) :
    (GameConfig.try_from cli = .error .NoArguments ↔
      (cli.map = none ∧ cli.game_type = none)) ∧
    ((∃ e, GameConfig.try_from cli = .error (.ClapError e)) ↔
      cli.map.isSome ≠ cli.game_type.isSome) ∧
    ((∃ gc, GameConfig.try_from cli = .ok gc) ↔
      (cli.map.isSome = true ∧ cli.game_type.isSome = true)) ∧
    (∀ (m : String) (bots : List String) (hs : Bool)
        (lm : Option BwapiLanMode),
      ∃ gcM gcH,
        GameConfig.try_from ⟨some m, some (.Melee bots), hs, lm⟩ = .ok gcM ∧
        GameConfig.try_from ⟨some m, some (.Human bots), hs, lm⟩ = .ok gcH ∧
        gcM.game_type = gcH.game_type ∧
        gcM.human_host = false ∧ gcH.human_host = true) := by
  obtain ⟨mp, gt, hs0, lm0⟩ := cli
  refine ⟨?_, ?_, ?_, ?_⟩
  · cases mp <;> cases gt <;> simp [GameConfig.try_from]
  · cases mp <;> cases gt <;> simp [GameConfig.try_from]
  · cases mp <;> cases gt <;> simp [GameConfig.try_from]
  · intro m bots hs lm
    exact ⟨_, _, rfl, rfl, rfl, rfl, rfl⟩

/-- Witness for C10: with neither map nor subcommand the conversion reports
`NoArguments`. -/
theorem cli_try_from_characterisation_witness :
    GameConfig.try_from ⟨none, none, false, none⟩ = .error .NoArguments :=
  (cli_try_from_characterisation ⟨none, none, false, none⟩).1.mpr ⟨rfl, rfl⟩

/-- Witness for C2: with the table unattached both slot queries report
`false`. -/
theorem unattached_false_and_never_both_true_witness :
    (GameTableAccess.mk none).has_free_slot = false ∧
      (GameTableAccess.mk none).all_slots_filled = false :=
  unattached_false_and_never_both_true.1

/-- Witness for C3: an arbitrary unseen checksum yields `none`. -/
theorem from_u32_characterisation_witness :
    BwapiVersion.from_u32 0xDEADBEEF = none :=
  (from_u32_characterisation.2.2.2.2.2.2.2 0xDEADBEEF).mpr (by decide)

/-- Witness for C4: at a concrete intent the fixed section order holds. -/
theorem end_to_end_host_document_witness :
    List.Sublist ["[ai]", "[auto_menu]", replayLine, "[starcraft]"]
      BwapiIni.default.writeLines :=
  (end_to_end_host_document "bot.dll" "game").2 BwapiIni.default

/-- Witness for C5: concrete Host and Join documents carry their role keys. -/
theorem host_join_role_keys_witness :
    ("wait_for_min_players=" ++ toString 2) ∈
        (BwapiIni.mk "" none 0 false
          (.AutoMenu "n" .Terran "g" (.Host none 2) .LocalPC)).writeLines ∧
      ("game=" ++ "g") ∈
        (BwapiIni.mk "" none 0 false
          (.AutoMenu "n" .Terran "g" .Join .LocalPC)).writeLines :=
  ⟨(host_join_role_keys "" none 0 false "n" .Terran "g" .LocalPC none 2).1.1,
    (host_join_role_keys "" none 0 false "n" .Terran "g" .LocalPC none 2).2.1⟩

/-- Witness for C9: a DLL bot's path is carried on the `ai = ` line while an
EXE bot leaves it empty. -/
theorem ai_module_from_binary_witness :
    (BwapiIni.from ⟨.Exe "bot.exe", none⟩).ai_module = "" ∧
      (BwapiIni.from ⟨.Dll "bot.exe", none⟩).ai_module = "bot.exe" :=
  ⟨(ai_module_from_binary "bot.exe" none).1,
    (ai_module_from_binary "bot.exe" none).2.2.2.2.1⟩

end BWAIShotgun
